import Mathlib

/-!
# Verification of the location-tracker client/server sync logic

A shallow embedding of the sync-relevant parts of the repository:

* the browser client (`public/app.js`): the `app` object's location store,
  connectivity flags, and the sync functions `syncNow`, `syncLocationToServer`,
  `deleteLocation` / `deleteFromServer`, `checkConnection`,
  `loadStoredLocations`;
* the Express backend (`server.js`): the `POST /api/locations` upsert handler,
  the `POST /api/import` bulk-import handler, the `GET /api/health` route and
  the `authenticate` middleware.

Remote calls are modelled by an outcome parameter (per-request success /
HTTP-error / network-error); the DOM, the map widget, toasts and log lines are
either dropped or reflected as report values.  JavaScript numbers are modelled
by `ℚ` (every finite double is rational); `NaN` and the infinities are outside
the model and noted where relevant.
-/

namespace LocTracker

/-- Connectivity indicator, as set by `app.updateSyncIndicator`
(`'online' | 'offline' | 'syncing'`). -/
inductive SyncIndicator
  | online
  | offline
  | syncing
deriving DecidableEq, Repr

/-- A client-side location record (one element of `app.locations`).
`lat`/`lng` are finite doubles, modelled as rationals. -/
structure LocationRec where
  id : Nat
  ltype : String
  note : String
  lat : ℚ
  lng : ℚ
  timestamp : String
  address : String
  synced : Bool
deriving DecidableEq, Repr

/-- The sync-relevant part of the `app` object's state.
`storedLocations` mirrors the `tracker_locations` localStorage blob as
written by `app.saveToLocalStorage` (serialization elided);
`pendingSync` and `lastSync` are the fields of `app.syncState`;
`offlineMode` is `app.config.offlineMode`. -/
structure ClientState where
  locations : List LocationRec
  storedLocations : List LocationRec
  offlineMode : Bool
  isSyncing : Bool
  indicator : SyncIndicator
  pendingSync : List Nat
  lastSync : Option Nat
deriving DecidableEq, Repr

/-- The toast/report a `syncNow` invocation produces. -/
inductive SyncReport
  | alreadySyncing            -- "Sync already in progress"
  | allSynced                 -- "All locations already synced"
  | syncedOk (n : Nat)        -- "Synced n locations"
  | syncPartial (succ fail : Nat)  -- "Synced succ, failed fail"
deriving DecidableEq, Repr

/-- Result of a `syncNow` run: the new state, the ids actually POSTed to the
server (in order), and the report shown to the user. -/
structure SyncResult where
  state : ClientState
  submitted : List Nat
  report : SyncReport
deriving DecidableEq, Repr

/-- The per-record network outcome of `app.syncNow`'s upsert loop, keyed by
record id: `net l.id = true` means the `POST /api/locations` for that record
returned `response.ok`; `false` covers both a non-2xx response and a thrown
network error (the loop's `catch` treats them alike, both increment
`failCount`).

Embeds `app.syncNow` (app.js lines 358–425):
guard on `syncState.isSyncing`; filter unsynced; early return when none;
sequential upsert loop flipping `synced` on success; then
`saveToLocalStorage`, release of the flag, `lastSync`, and the
zero-failure / some-failure connectivity outcome. -/
def syncNow (net : Nat → Bool) (now : Nat) (st : ClientState) : SyncResult :=
  if st.isSyncing then
    { state := st, submitted := [], report := .alreadySyncing }
  else
    -- this.syncState.isSyncing = true; updateSyncIndicator('syncing')
    let st1 : ClientState := { st with isSyncing := true, indicator := .syncing }
    let unsynced := st1.locations.filter (fun l => !l.synced)
    if unsynced.isEmpty then
      -- early return: flag released, indicator online, offlineMode untouched
      { state := { st1 with isSyncing := false, indicator := .online }
        submitted := []
        report := .allSynced }
    else
      -- the loop mutates each unsynced record object in place on success
      let locs' := st1.locations.map
        (fun l => if !l.synced && net l.id then { l with synced := true } else l)
      let succ := (unsynced.filter (fun l => net l.id)).length
      let fail := (unsynced.filter (fun l => !net l.id)).length
      let st2 : ClientState :=
        { st1 with
            locations := locs'
            storedLocations := locs'   -- saveToLocalStorage()
            isSyncing := false
            lastSync := some now }
      if fail = 0 then
        { state := { st2 with offlineMode := false, indicator := .online }
          submitted := unsynced.map (·.id)
          report := .syncedOk succ }
      else
        { state := { st2 with indicator := .offline }
          submitted := unsynced.map (·.id)
          report := .syncPartial succ fail }

/-- The pending (unsynced) records of a store, as selected by
`this.locations.filter(l => !l.synced)`. -/
def pendingList (locs : List LocationRec) : List LocationRec :=
  locs.filter (fun l => !l.synced)

/-- Number of records currently marked `synced`. -/
def syncedCount (locs : List LocationRec) : Nat :=
  (locs.filter (fun l => l.synced)).length

/-- Outcome of a single remote HTTP request, as distinguished by the client
code: `ok2xx` is `response.ok`; `non2xx` is a response with `response.ok`
false; `netError` is a rejected fetch (caught by `catch`). -/
inductive ProbeOutcome
  | ok2xx
  | non2xx
  | netError
deriving DecidableEq, Repr

/-- Embeds `app.syncLocationToServer` (app.js lines 317–356), the immediate
post-creation push of one record (the spec's `pushOne`), keyed by the
record's id.  In offline mode the id is queued and no request is made.
Otherwise one POST is attempted: on `response.ok` the record's `synced`
flag is set, the store persisted and the indicator set online; a non-2xx
response throws inside the `try` and lands in the same `catch` as a network
error, which queues the id, sets the indicator offline and returns normally
(no exception escapes the function's async body). -/
def syncLocationToServer (st : ClientState) (locId : Nat) (o : ProbeOutcome) :
    ClientState :=
  if st.offlineMode then
    { st with pendingSync := st.pendingSync ++ [locId] }
  else
    match o with
    | .ok2xx =>
        let locs' := st.locations.map
          (fun l => if l.id = locId then { l with synced := true } else l)
        { st with
            locations := locs'
            storedLocations := locs'   -- saveToLocalStorage()
            indicator := .online }
    | _ =>
        { st with
            pendingSync := st.pendingSync ++ [locId]
            indicator := .offline }

/-- Embeds `app.deleteFromServer` (app.js lines 427–441), returning the list
of remote DELETE requests issued (by id).  In offline mode it returns
immediately with no request; otherwise exactly one DELETE is attempted, and
a failure of that request is only logged (no retry, no state change), so
the issued-request list does not depend on the request's outcome. -/
def deleteFromServer (st : ClientState) (id : Nat) : List Nat :=
  if st.offlineMode then [] else [id]

/-- Embeds `app.deleteLocation` (app.js lines 270–296): after the `confirm`
dialog, look the record up, remove it from `locations`, persist, and call
`deleteFromServer` only when the removed record existed and was synced.
Returns the new state and the remote DELETE requests issued. -/
def deleteLocation (st : ClientState) (id : Nat) (confirmed : Bool) :
    ClientState × List Nat :=
  if !confirmed then (st, [])
  else
    let found := st.locations.find? (fun l => l.id = id)
    let locs' := st.locations.filter (fun l => l.id ≠ id)
    let st' : ClientState := { st with locations := locs', storedLocations := locs' }
    match found with
    | some l => if l.synced then (st', deleteFromServer st' id) else (st', [])
    | none => (st', [])

/-- Embeds `app.checkConnection` (app.js lines 453–474).  On `response.ok`
it clears `offlineMode`, sets the indicator online and returns `true`.  A
thrown network error is caught: `offlineMode` set, indicator offline,
return `false`.  A non-2xx response falls through the `if` without
entering the `catch`: the state is left untouched and `false` is
returned.  Record data (`locations`) is never touched. -/
def checkConnection (st : ClientState) (o : ProbeOutcome) : ClientState × Bool :=
  match o with
  | .ok2xx => ({ st with offlineMode := false, indicator := .online }, true)
  | .non2xx => (st, false)
  | .netError => ({ st with offlineMode := true, indicator := .offline }, false)

/-- What `JSON.parse` of the `tracker_locations` blob can yield, as far as
`loadStoredLocations` distinguishes it: a well-formed array of records, or a
well-formed non-array value (object, string, number, boolean, null — none of
which has a `forEach` method), abstracted by a tag. -/
inductive JsonVal
  | arr (l : List LocationRec)
  | nonArray (tag : String)
deriving DecidableEq, Repr

/-- The persisted blob as seen by `localStorage.getItem('tracker_locations')`:
absent (`null`), the empty string (falsy, skipped like absent), a string that
does not parse as JSON, or well-formed JSON. -/
inductive Blob
  | absent
  | emptyStr
  | malformed
  | wellFormed (v : JsonVal)
deriving DecidableEq, Repr

/-- The value held by `app.locations` after a restore: a genuine record
array, or a non-array value adopted from a corrupt blob. -/
inductive StoreVal
  | arr (l : List LocationRec)
  | corrupt (tag : String)
deriving DecidableEq, Repr

/-- Embeds `app.loadStoredLocations` (app.js lines 667–680).  Returns the
resulting `app.locations` value and whether the `catch` logged an error.
The `if (stored)` guard skips absent and empty blobs; `JSON.parse` of a
malformed blob throws before any assignment (caught, logged); a well-formed
non-array value is assigned to `this.locations` first, and only the
subsequent `.forEach` call throws (caught, logged) — the corrupt value
stays adopted. -/
def loadStoredLocations (prev : StoreVal) (b : Blob) : StoreVal × Bool :=
  match b with
  | .absent => (prev, false)
  | .emptyStr => (prev, false)
  | .malformed => (prev, true)
  | .wellFormed (.nonArray t) => (.corrupt t, true)
  | .wellFormed (.arr l) => (.arr l, false)

/-! ## Server side (`server.js`) -/

/-- A JSON body field value as the `POST /api/locations` handler inspects it:
a (finite) number or a string.  `NaN`, infinities, booleans, objects and
arrays are outside the model. -/
inductive BVal
  | num (q : ℚ)
  | str (s : String)
deriving DecidableEq, Repr

/-- JavaScript truthiness of a field value: `0` and `""` are falsy. -/
def BVal.truthy : BVal → Bool
  | .num q => if q = 0 then false else true
  | .str s => if s = "" then false else true

/-- Truthiness of a possibly-absent field (`undefined` is falsy). -/
def truthyOpt : Option BVal → Bool
  | none => false
  | some v => v.truthy

/-- `typeof v === 'number'` for a possibly-absent field. -/
def isNumOpt : Option BVal → Bool
  | some (.num _) => true
  | _ => false

/-- The parsed body of a `POST /api/locations` request
(`{id, type, note, latitude, longitude, timestamp, address}`); each field may
be absent. -/
structure PostBody where
  id : Option BVal
  type : Option BVal
  note : Option BVal
  latitude : Option BVal
  longitude : Option BVal
  timestamp : Option BVal
  address : Option BVal
deriving DecidableEq, Repr

/-- A row of the `locations` table.  `id` is the BIGINT primary key;
`created_at` / `updated_at` are the audit timestamps, modelled as the
abstract clock value of the `NOW()` call that wrote them.  `note`,
`timestamp` and `address` are kept as the submitted values (TEXT /
TIMESTAMPTZ casting of well-formed values is elided). -/
structure Row where
  id : ℚ
  rtype : String
  note : BVal
  latitude : ℚ
  longitude : ℚ
  timestamp : BVal
  address : Option BVal
  created_at : Nat
  updated_at : Nat
deriving DecidableEq, Repr

/-- The column values an upsert carries into the table (after validation). -/
structure UpsertData where
  id : ℚ
  rtype : String
  note : BVal
  latitude : ℚ
  longitude : ℚ
  timestamp : BVal
  address : Option BVal
deriving DecidableEq, Repr

/-- The `DO UPDATE SET` arm of the upsert: overwrite every mutable column
from `EXCLUDED`, set `updated_at = NOW()`, keep `id` and `created_at`. -/
def applyUpd (now : Nat) (d : UpsertData) (r : Row) : Row :=
  { r with
      rtype := d.rtype
      note := d.note
      latitude := d.latitude
      longitude := d.longitude
      timestamp := d.timestamp
      address := d.address
      updated_at := now }

/-- The freshly inserted row, with both audit timestamps set to `NOW()`. -/
def newRow (now : Nat) (d : UpsertData) : Row :=
  { id := d.id, rtype := d.rtype, note := d.note, latitude := d.latitude
    longitude := d.longitude, timestamp := d.timestamp, address := d.address
    created_at := now, updated_at := now }

/-- The `INSERT ... ON CONFLICT (id) DO UPDATE` statement: if a row with
the key exists it is updated in place, otherwise a new row is appended. -/
def upsertRow (now : Nat) (db : List Row) (d : UpsertData) : List Row :=
  if db.any (fun r => r.id = d.id) then
    db.map (fun r => if r.id = d.id then applyUpd now d r else r)
  else
    db ++ [newRow now d]

/-- The row the statement's `RETURNING *` yields. -/
def upsertReturning (now : Nat) (db : List Row) (d : UpsertData) : Row :=
  match db.find? (fun r => r.id = d.id) with
  | some r => applyUpd now d r
  | none => newRow now d

/-- Response of the `POST /api/locations` handler, reduced to what the
claims need: status plus error message or the returned row. -/
inductive PostResponse
  | badRequest (msg : String)          -- 400
  | created (r : Row)                  -- 201
  | serverError                        -- 500 (query threw)
deriving DecidableEq, Repr

/-- Embeds the `POST /api/locations` handler (server.js lines 216–271).
Validation follows the source exactly:

1. `if (!id || !type || !note || !latitude || !longitude || !timestamp)`
   — a *truthiness* test, so a field that is present but `0` or `""` is
   treated as missing;
2. `type` must be exactly `'plant'` or `'litter'`;
3. `typeof latitude !== 'number' || typeof longitude !== 'number'`.

A body that passes all three reaches the upsert and a 201 with the
`RETURNING` row.  A non-numeric `id` that survives validation (a truthy
string) would fail the BIGINT cast inside the query and surface as the
handler's `catch` → 500; numeric-string casting is not modelled. -/
def postLocation (now : Nat) (db : List Row) (b : PostBody) :
    List Row × PostResponse :=
  if !(truthyOpt b.id && truthyOpt b.type && truthyOpt b.note &&
       truthyOpt b.latitude && truthyOpt b.longitude && truthyOpt b.timestamp) then
    (db, .badRequest "Missing required fields")
  else if b.type ≠ some (.str "plant") && b.type ≠ some (.str "litter") then
    (db, .badRequest "Invalid type")
  else if !(isNumOpt b.latitude && isNumOpt b.longitude) then
    (db, .badRequest "Latitude and longitude must be numbers")
  else
    match b.id, b.type, b.latitude, b.longitude, b.note, b.timestamp with
    | some (.num idq), some (.str ty), some (.num la), some (.num ln),
      some nv, some tv =>
        let d : UpsertData :=
          { id := idq, rtype := ty, note := nv, latitude := la, longitude := ln
            timestamp := tv
            -- `address || null`: a falsy address is stored as NULL
            address := if truthyOpt b.address then b.address else none }
        (upsertRow now db d, .created (upsertReturning now db d))
    | _, _, _, _, _, _ => (db, .serverError)

/-- Server configuration read from the environment: `process.env.NODE_ENV`
and `process.env.API_KEY` (a missing variable is `none`; the empty string is
falsy, like unset). -/
structure Env where
  nodeEnv : Option String
  apiKey : Option String
deriving DecidableEq, Repr

/-- Truthiness of an environment variable (`undefined` and `""` falsy). -/
def truthyStr : Option String → Bool
  | none => false
  | some s => if s = "" then false else true

/-- Embeds the `authenticate` middleware (server.js lines 32–45): returns
`none` when the request passes (`next()` is called) and `some 401` when it
is rejected.  In development, or when no API key is configured, every
request passes; otherwise the `x-api-key` header must be present and equal
to the configured key. -/
def authenticate (env : Env) (reqKey : Option String) : Option Nat :=
  if env.nodeEnv = some "development" || !truthyStr env.apiKey then
    none
  else if !truthyStr reqKey || reqKey ≠ env.apiKey then
    some 401
  else
    none

/-- An HTTP response reduced to status code and a body tag. -/
structure HttpResponse where
  status : Nat
  tag : String
deriving DecidableEq, Repr

/-- Embeds the `GET /api/health` handler body (server.js lines 125–141):
probe the database (`SELECT NOW()`); 503 `error/disconnected` on failure,
200 `ok/connected` on success. -/
def handleHealth (dbOk : Bool) : HttpResponse :=
  if dbOk then { status := 200, tag := "ok" }
  else { status := 503, tag := "error" }

/-- The two route registrations the authentication claim compares:
`app.get('/api/health', handler)` — no middleware — versus
`app.get('/api/locations', authenticate, handler)`. -/
inductive Route
  | health
  | listLocations
deriving DecidableEq, Repr

/-- Dispatch of a request as Express runs it: routes registered with the
`authenticate` middleware run it first and stop on 401; `/api/health` is
registered without it, so its handler runs unconditionally.  The
`listLocations` handler body is abstracted to a 200 response (its row
mapping is irrelevant to the claims). -/
def serveRequest (env : Env) (route : Route) (reqKey : Option String)
    (dbOk : Bool) : HttpResponse :=
  match route with
  | .health => handleHealth dbOk
  | .listLocations =>
      match authenticate env reqKey with
      | some code => { status := code, tag := "Unauthorized" }
      | none => { status := 200, tag := "locations" }

/-- One element of the `locations` array of a `POST /api/import` body; every
field may be absent or of the wrong shape. -/
structure ImportLoc where
  id : Option BVal
  ltype : Option BVal
  note : Option BVal
  lat : Option BVal
  lng : Option BVal
  timestamp : Option BVal
  address : Option BVal
deriving DecidableEq, Repr

/-- Whether the `INSERT ... ON CONFLICT (id) DO NOTHING` statement for a
batch row executes without error: the proposed tuple must satisfy the
column types and constraints (`id` BIGINT, `type` in {plant, litter},
`note`/`timestamp` NOT NULL, `latitude`/`longitude` numbers).  PostgreSQL
checks these on the proposed tuple, independently of whether the unique
conflict then suppresses the insert. -/
def rowInsertable (l : ImportLoc) : Bool :=
  isNumOpt l.id &&
  (l.ltype = some (.str "plant") || l.ltype = some (.str "litter")) &&
  l.note.isSome &&
  isNumOpt l.lat && isNumOpt l.lng &&
  l.timestamp.isSome

/-- The key value of an import row (defined when `rowInsertable`). -/
def importId (l : ImportLoc) : ℚ :=
  match l.id with
  | some (.num q) => q
  | _ => 0

/-- The row a successful, non-conflicting import insert adds. -/
def importRow (l : ImportLoc) : Row :=
  { id := importId l
    rtype := match l.ltype with | some (.str s) => s | _ => ""
    note := match l.note with | some v => v | none => .str ""
    latitude := match l.lat with | some (.num q) => q | _ => 0
    longitude := match l.lng with | some (.num q) => q | _ => 0
    timestamp := match l.timestamp with | some v => v | none => .str ""
    address := l.address
    created_at := 0, updated_at := 0 }

/-- One iteration of the import loop (server.js lines 497–510): an invalid
row makes the query throw (caught per-row, `failed++`); a valid row whose
`id` already exists hits `ON CONFLICT (id) DO NOTHING` — no row is written,
no error is raised, and `imported++` still runs; a valid fresh row is
inserted and counted. -/
def importOne (acc : List Row × Nat × Nat) (l : ImportLoc) :
    List Row × Nat × Nat :=
  let (db, imported, failed) := acc
  if rowInsertable l then
    if db.any (fun r => r.id = importId l) then
      (db, imported + 1, failed)
    else
      (db ++ [importRow l], imported + 1, failed)
  else
    (db, imported, failed + 1)

/-- Embeds the body of the `POST /api/import` handler (server.js lines
486–525) after the `Array.isArray` check: fold the per-row loop over the
batch and report `(imported, failed)`; the response also echoes
`total = locations.length`. -/
def importLocations (db : List Row) (locs : List ImportLoc) :
    List Row × Nat × Nat :=
  locs.foldl importOne (db, 0, 0)

/-- The `locations` primary keys have no duplicate (the PRIMARY KEY
invariant of the table). -/
def dbKeysNodup (db : List Row) : Prop := (db.map (·.id)).Nodup

/-- The upsert data a valid `POST /api/locations` body carries (the
destructured field values; `address || null` nulls a falsy address). -/
def postData (b : PostBody) (idq : ℚ) (ty : String) (la ln : ℚ)
    (nv tv : BVal) : UpsertData :=
  { id := idq, rtype := ty, note := nv, latitude := la, longitude := ln
    timestamp := tv
    address := if truthyOpt b.address then b.address else none }

/-- `created/badRequest/serverError` discriminator for 201 responses. -/
def PostResponse.isCreated : PostResponse → Bool
  | .created _ => true
  | _ => false

/-! ## Concrete fixtures used by witnesses and counterexamples -/

/-- A freshly created, not yet synced record. -/
def recPending : LocationRec :=
  { id := 101, ltype := "plant", note := "kudzu", lat := 38, lng := -77
    timestamp := "2024-01-01T00:00:00Z", address := "addr", synced := false }

/-- A record whose upsert already succeeded. -/
def recSynced : LocationRec :=
  { id := 102, ltype := "litter", note := "cans", lat := 38, lng := -77
    timestamp := "2024-01-02T00:00:00Z", address := "addr", synced := true }

/-- An idle online client holding one pending and one synced record. -/
def stIdle : ClientState :=
  { locations := [recPending, recSynced]
    storedLocations := [recPending, recSynced]
    offlineMode := false, isSyncing := false, indicator := .online
    pendingSync := [], lastSync := none }

/-- The same store, but in manual offline mode. -/
def stOffline : ClientState :=
  { stIdle with offlineMode := true, indicator := .offline }

/-- A client with a sync currently in flight. -/
def stBusy : ClientState :=
  { stIdle with isSyncing := true, indicator := .syncing }

/-- An offline-flagged client whose store has no pending record. -/
def stAllSynced : ClientState :=
  { locations := [recSynced], storedLocations := [recSynced]
    offlineMode := true, isSyncing := false, indicator := .offline
    pendingSync := [], lastSync := none }

/-- A `POST /api/locations` body whose latitude is the (finite, present)
number `0` — a point on the equator. -/
def bodyLatZero : PostBody :=
  { id := some (.num 1700000000000), type := some (.str "plant")
    note := some (.str "kudzu"), latitude := some (.num 0)
    longitude := some (.num (-77))
    timestamp := some (.str "2024-01-01T00:00:00Z"), address := none }

/-- The same body with a nonzero latitude. -/
def bodyLatNonzero : PostBody :=
  { bodyLatZero with latitude := some (.num 39) }

/-- First upsert body for the idempotency witness (id 5, note "first"). -/
def bodyFirst : PostBody :=
  { id := some (.num 5), type := some (.str "plant")
    note := some (.str "first"), latitude := some (.num 38)
    longitude := some (.num (-77)), timestamp := some (.str "t1")
    address := none }

/-- Second upsert body: same id, changed note. -/
def bodySecond : PostBody :=
  { bodyFirst with note := some (.str "second"), timestamp := some (.str "t2") }

/-- A valid import element with id 5. -/
def importLocFive : ImportLoc :=
  { id := some (.num 5), ltype := some (.str "litter")
    note := some (.str "imported"), lat := some (.num 1)
    lng := some (.num 2), timestamp := some (.str "t3"), address := none }

/-- A table already holding a row with id 5. -/
def dbWithFive : List Row :=
  [{ id := 5, rtype := "plant", note := .str "old", latitude := 38
     longitude := -77, timestamp := .str "t0", address := none
     created_at := 0, updated_at := 0 }]

/-! ## Theorems -/

/-- C9: the `GET /api/health` response does not depend on authentication —
for any two server configurations and any two `X-API-Key` headers, the
health route (registered without the `authenticate` middleware) produces
the same response, and that response is never a 401. -/
theorem health_independent_of_auth (env env' : Env) (k k' : Option String)
    (dbOk : Bool) :
    serveRequest env .health k dbOk = serveRequest env' .health k' dbOk ∧
    (serveRequest env .health k dbOk).status ≠ 401 := by
  constructor
  · rfl
  · cases dbOk <;> simp [serveRequest, handleHealth]

/-- C5 (amended): `checkConnection` never touches record data and returns
`true` exactly on a 2xx probe; a 2xx probe clears the offline-mode flag and
sets the indicator online, a thrown network error sets the flag and the
indicator offline, but a non-2xx response leaves the connectivity state
entirely unchanged (it only returns `false`). -/
theorem checkConnection_outcomes (st : ClientState) :
    checkConnection st .ok2xx
      = ({ st with offlineMode := false, indicator := .online }, true) ∧
    checkConnection st .non2xx = (st, false) ∧
    checkConnection st .netError
      = ({ st with offlineMode := true, indicator := .offline }, false) ∧
    ∀ o : ProbeOutcome,
      (checkConnection st o).1.locations = st.locations ∧
      ((checkConnection st o).2 = true ↔ o = .ok2xx) := by
  refine ⟨rfl, rfl, rfl, fun o => ?_⟩
  cases o <;> simp [checkConnection]

/-- C5 counterexample: at an online client, a probe that returns a non-2xx
response leaves the offline-mode flag clear and the indicator online — the
code does not set the connectivity state to offline in that case, contrary
to the claim. -/
theorem checkConnection_non2xx_keeps_state :
    checkConnection stIdle .non2xx = (stIdle, false) ∧
    stIdle.offlineMode = false ∧ stIdle.indicator = .online := by
  refine ⟨rfl, rfl, rfl⟩

/-- C8 (amended): `loadStoredLocations` always returns (no exception
escapes); an absent or empty blob leaves the store unchanged; a
non-parsing blob leaves the store unchanged and logs; but a well-formed
non-array blob is adopted as the store value (the assignment precedes the
`forEach` failure), and a well-formed record array replaces the store. -/
theorem loadStoredLocations_outcomes (prev : StoreVal) (t : String)
    (l : List LocationRec) :
    loadStoredLocations prev .absent = (prev, false) ∧
    loadStoredLocations prev .emptyStr = (prev, false) ∧
    loadStoredLocations prev .malformed = (prev, true) ∧
    loadStoredLocations prev (.wellFormed (.nonArray t)) = (.corrupt t, true) ∧
    loadStoredLocations prev (.wellFormed (.arr l)) = (.arr l, false) :=
  ⟨rfl, rfl, rfl, rfl, rfl⟩

/-- C8 counterexample: restoring from a well-formed blob that is not an
array (a JSON object, say) starting from the empty store yields the adopted
corrupt value, not the empty set the claim promises. -/
theorem loadStoredLocations_adopts_corrupt :
    loadStoredLocations (.arr []) (.wellFormed (.nonArray "object"))
      = (.corrupt "object", true) ∧
    StoreVal.corrupt "object" ≠ .arr [] := by
  exact ⟨rfl, by simp⟩

/-- C3: the code rejects a present, finite latitude of 0 — the handler's
truthiness test `!latitude` treats the number 0 as a missing field and
responds 400 "Missing required fields" without performing the upsert,
while the identical body with a nonzero latitude is accepted with 201. -/
theorem postLocation_rejects_zero_latitude :
    postLocation 0 [] bodyLatZero = ([], .badRequest "Missing required fields") ∧
    (postLocation 0 [] bodyLatNonzero).2.isCreated = true := by
  constructor
  · rfl
  · decide

/-- C4 (amended): deleting a confirmed, present record removes every record
with that id from the store, persists the store, and issues no remote
DELETE when the record was unsynced; if the record was synced the client
issues exactly one remote DELETE when not in offline mode, and none at all
in offline mode. -/
theorem deleteLocation_remote_policy (st : ClientState) (id : Nat)
    (l : LocationRec) (hfound : st.locations.find? (fun r => r.id = id) = some l) :
    (∀ r ∈ (deleteLocation st id true).1.locations, r.id ≠ id) ∧
    (deleteLocation st id true).1.storedLocations
      = (deleteLocation st id true).1.locations ∧
    (l.synced = false → (deleteLocation st id true).2 = []) ∧
    (l.synced = true → st.offlineMode = false →
       (deleteLocation st id true).2 = [id]) ∧
    (l.synced = true → st.offlineMode = true →
       (deleteLocation st id true).2 = []) := by
  refine ⟨?_, ?_, ?_, ?_, ?_⟩ <;>
    simp only [deleteLocation, hfound, Bool.not_true, Bool.false_eq_true,
      if_false]
  · intro r hr
    split at hr <;> exact of_decide_eq_true (List.mem_filter.1 hr).2
  · split <;> rfl
  · intro hs; simp [hs]
  · intro hs hoff; simp [hs, deleteFromServer, hoff]
  · intro hs hoff; simp [hs, deleteFromServer, hoff]

/-- C4 counterexample: in offline mode, deleting a synced record issues no
remote DELETE at all — not the exactly-one call the claim states. -/
theorem deleteLocation_offline_no_remote_call :
    stOffline.locations.find? (fun r => r.id = 102) = some recSynced ∧
    recSynced.synced = true ∧
    (deleteLocation stOffline 102 true).2 = [] :=
  ⟨rfl, rfl, rfl⟩

/-- C4 witness: on the online fixture, deleting the synced record 102
issues exactly the one DELETE for id 102 and removes it locally. -/
theorem deleteLocation_remote_policy_witness :
    (deleteLocation stIdle 102 true).2 = [102] ∧
    ∀ r ∈ (deleteLocation stIdle 102 true).1.locations, r.id ≠ 102 := by
  have h := deleteLocation_remote_policy stIdle 102 recSynced rfl
  exact ⟨h.2.2.2.1 rfl rfl, h.1⟩

/-- C6: the immediate post-creation push. On a 2xx response the pushed
record is marked synced, the store is persisted and the indicator set
online, other records being kept; on a non-2xx response or network error
the function returns normally with the store untouched, the indicator set
offline and the id queued for the periodic sweep. -/
theorem syncLocationToServer_outcomes (st : ClientState) (locId : Nat)
    (o : ProbeOutcome) (hoff : st.offlineMode = false) :
    (o = .ok2xx →
       (∀ l ∈ (syncLocationToServer st locId o).locations,
          l.id = locId → l.synced = true) ∧
       (syncLocationToServer st locId o).storedLocations
         = (syncLocationToServer st locId o).locations ∧
       (syncLocationToServer st locId o).indicator = .online ∧
       ∀ l ∈ st.locations, l.id ≠ locId →
         l ∈ (syncLocationToServer st locId o).locations) ∧
    (o ≠ .ok2xx →
       (syncLocationToServer st locId o).locations = st.locations ∧
       (syncLocationToServer st locId o).storedLocations
         = st.storedLocations ∧
       (syncLocationToServer st locId o).indicator = .offline ∧
       (syncLocationToServer st locId o).pendingSync
         = st.pendingSync ++ [locId]) := by
  constructor
  · rintro rfl
    simp only [syncLocationToServer, hoff, Bool.false_eq_true, if_false]
    refine ⟨?_, ⟨⟩, ⟨⟩, ?_⟩
    · intro l hl hid
      rcases List.mem_map.1 hl with ⟨a, ha, rfl⟩
      by_cases h : a.id = locId
      · simp [h]
      · rw [if_neg h] at hid
        exact absurd hid h
    · intro l hl hne
      exact List.mem_map.2 ⟨l, hl, by simp [hne]⟩
  · intro h
    cases o with
    | ok2xx => exact absurd rfl h
    | non2xx => simp [syncLocationToServer, hoff]
    | netError => simp [syncLocationToServer, hoff]

/-- C6 witness: pushing record 101 from the online fixture marks it synced
on a 2xx response, and leaves the store untouched on a network error. -/
theorem syncLocationToServer_outcomes_witness :
    (∀ l ∈ (syncLocationToServer stIdle 101 .ok2xx).locations,
       l.id = 101 → l.synced = true) ∧
    (syncLocationToServer stIdle 101 .netError).locations
      = stIdle.locations := by
  have h1 := syncLocationToServer_outcomes stIdle 101 .ok2xx rfl
  have h2 := syncLocationToServer_outcomes stIdle 101 .netError rfl
  exact ⟨(h1.1 rfl).1, (h2.2 (by decide)).1⟩

/-- C2: `syncNow` is single-flight — while a sync is in flight a second
invocation reports "already in progress", submits no record and leaves the
whole client state unchanged; and an admitted run always ends with the
single-flight flag released (every completion path of the embedded
function, exceptional upsert outcomes included, clears `isSyncing`). -/
theorem syncNow_single_flight (net : Nat → Bool) (now : Nat)
    (st : ClientState) :
    (st.isSyncing = true →
       syncNow net now st
         = { state := st, submitted := [], report := .alreadySyncing }) ∧
    (st.isSyncing = false → (syncNow net now st).state.isSyncing = false) := by
  constructor
  · intro h; simp [syncNow, h]
  · intro h
    simp only [syncNow, h, Bool.false_eq_true, if_false]
    split
    · rfl
    · split <;> rfl

/-- A list splits into the elements satisfying a predicate and the rest. -/
theorem length_filter_split {α : Type} (p : α → Bool) (l : List α) :
    (l.filter p).length + (l.filter (fun a => !p a)).length = l.length := by
  induction l with
  | nil => rfl
  | cons a l ih =>
    cases h : p a <;> simp [List.filter_cons, h] <;> omega

/-- After the sync map, the still-pending records are exactly the
previously-pending ones whose upsert failed. -/
theorem filter_pending_map_sync (net : Nat → Bool) (locs : List LocationRec) :
    (locs.map (fun l =>
        if !l.synced && net l.id then { l with synced := true } else l)).filter
          (fun l => !l.synced)
      = (locs.filter (fun l => !l.synced)).filter (fun l => !net l.id) := by
  induction locs with
  | nil => rfl
  | cons a l ih =>
    simp at ih
    cases ha : a.synced <;> cases hn : net a.id <;>
      simp [List.filter_cons, ha, hn, ih]

/-- After the sync map, the synced records are the previously synced ones
plus the pending ones whose upsert succeeded. -/
theorem length_synced_map_sync (net : Nat → Bool) (locs : List LocationRec) :
    ((locs.map (fun l =>
        if !l.synced && net l.id then { l with synced := true } else l)).filter
          (fun l => l.synced)).length
      = (locs.filter (fun l => l.synced)).length
        + ((locs.filter (fun l => !l.synced)).filter
            (fun l => net l.id)).length := by
  induction locs with
  | nil => rfl
  | cons a l ih =>
    simp at ih
    cases ha : a.synced <;> cases hn : net a.id <;>
      simp [List.filter_cons, ha, hn, ih] <;> omega

/-- C1 (amended): an admitted `syncNow` run over a store with at least one
pending record marks as synced exactly the pending records whose upsert
succeeded and persists the store; with zero failures every
previously-pending record ends up synced, the indicator is set online and
the manual offline-mode flag cleared; with at least one failure the
indicator is set offline and exactly (N − failures) records flip to
synced.  (For N = 0 the code takes an early-return path that sets the
indicator online but leaves the offline-mode flag untouched, which is why
the run is required to have a pending record.) -/
theorem syncNow_outcome (net : Nat → Bool) (now : Nat) (st : ClientState)
    (hflag : st.isSyncing = false) (hne : pendingList st.locations ≠ []) :
    (syncNow net now st).state.locations
      = st.locations.map (fun l =>
          if !l.synced && net l.id then { l with synced := true } else l) ∧
    (syncNow net now st).state.storedLocations
      = (syncNow net now st).state.locations ∧
    (syncNow net now st).state.isSyncing = false ∧
    (((pendingList st.locations).filter (fun l => !net l.id)).length = 0 →
       pendingList (syncNow net now st).state.locations = [] ∧
       (syncNow net now st).state.indicator = .online ∧
       (syncNow net now st).state.offlineMode = false) ∧
    (((pendingList st.locations).filter (fun l => !net l.id)).length ≠ 0 →
       (syncNow net now st).state.indicator = .offline ∧
       syncedCount (syncNow net now st).state.locations
         = syncedCount st.locations
           + ((pendingList st.locations).length
              - ((pendingList st.locations).filter
                  (fun l => !net l.id)).length)) := by
  simp only [pendingList, syncedCount] at hne ⊢
  have hne' : (st.locations.filter (fun l => !l.synced)).isEmpty = false := by
    cases hE : (st.locations.filter (fun l => !l.synced)).isEmpty
    · rfl
    · exact absurd (List.isEmpty_iff.mp hE) hne
  simp only [syncNow, hflag, Bool.false_eq_true, if_false, hne']
  by_cases hf : ((st.locations.filter (fun l => !l.synced)).filter
      (fun l => !net l.id)).length = 0
  · rw [if_pos hf]
    refine ⟨rfl, rfl, rfl, fun _ => ⟨?_, rfl, rfl⟩, fun h => absurd hf h⟩
    rw [filter_pending_map_sync]
    exact List.length_eq_zero.mp hf
  · rw [if_neg hf]
    refine ⟨rfl, rfl, rfl, fun h => absurd h hf, fun _ => ⟨rfl, ?_⟩⟩
    rw [length_synced_map_sync]
    have hsplit := length_filter_split (fun l => net l.id)
      (st.locations.filter (fun l => !l.synced))
    omega

/-- C1 counterexample: a store with zero pending records in manual offline
mode.  The run completes with zero upsert failures, yet `syncNow`'s
early-return path leaves the offline-mode flag set — the claim (quantified
over every N, including 0) says a zero-failure run clears it. -/
theorem syncNow_empty_keeps_offline_flag :
    pendingList stAllSynced.locations = [] ∧
    stAllSynced.offlineMode = true ∧
    (syncNow (fun _ => true) 0 stAllSynced).state.offlineMode = true ∧
    (syncNow (fun _ => true) 0 stAllSynced).state.indicator = .online :=
  ⟨rfl, rfl, rfl, rfl⟩

/-- C1 witness: on the idle fixture (one pending record) with an
all-successful network, the run syncs everything, goes online and keeps
the offline-mode flag clear; the pending count was 1 and no upsert
failed. -/
theorem syncNow_outcome_witness :
    pendingList (syncNow (fun _ => true) 7 stIdle).state.locations = [] ∧
    (syncNow (fun _ => true) 7 stIdle).state.indicator = .online ∧
    (syncNow (fun _ => true) 7 stIdle).state.offlineMode = false := by
  have h := syncNow_outcome (fun _ => true) 7 stIdle rfl (by decide)
  exact h.2.2.2.1 (by decide)

/-- The update arm of the upsert keeps the row's primary key. -/
theorem applyUpd_id (now : Nat) (d : UpsertData) (r : Row) :
    (applyUpd now d r).id = r.id := rfl

/-- Upserting past a row with a different key commutes with `cons`. -/
theorem upsertRow_cons_ne (now : Nat) (d : UpsertData) (r : Row)
    (db : List Row) (hr : r.id ≠ d.id) :
    upsertRow now (r :: db) d = r :: upsertRow now db d := by
  by_cases hdb : db.any (fun x => x.id = d.id) = true
  · simp [upsertRow, List.any_cons, hdb, hr]
  · simp only [Bool.not_eq_true] at hdb
    simp [upsertRow, List.any_cons, hdb, hr]

/-- `RETURNING` past a row with a different key looks further down. -/
theorem upsertReturning_cons_ne (now : Nat) (d : UpsertData) (r : Row)
    (db : List Row) (hr : r.id ≠ d.id) :
    upsertReturning now (r :: db) d = upsertReturning now db d := by
  simp [upsertReturning, List.find?_cons_of_neg, hr]

/-- In a duplicate-free table, the rows carrying the upserted key after an
upsert are exactly the one row the statement returns. -/
theorem upsertRow_filter_key (now : Nat) (d : UpsertData) (db : List Row)
    (h : dbKeysNodup db) :
    (upsertRow now db d).filter (fun r => r.id = d.id)
      = [upsertReturning now db d] := by
  induction db with
  | nil => simp [upsertRow, upsertReturning, newRow, List.filter_cons]
  | cons r db ih =>
    rw [dbKeysNodup, List.map_cons, List.nodup_cons] at h
    obtain ⟨hout, hnd⟩ := h
    by_cases hr : r.id = d.id
    · have hall : ∀ x ∈ db, x.id ≠ d.id := by
        intro x hx hxd
        have hmem : x.id ∈ db.map (·.id) := List.mem_map_of_mem _ hx
        rw [hxd, ← hr] at hmem
        exact hout hmem
      have hany : (r :: db).any (fun x => x.id = d.id) = true := by
        simp [List.any_cons, hr]
      have htail : (db.map
          (fun x => if x.id = d.id then applyUpd now d x else x)).filter
            (fun x => x.id = d.id) = [] := by
        rw [List.filter_eq_nil_iff]
        intro y hy
        rcases List.mem_map.1 hy with ⟨x, hx, rfl⟩
        have hxd := hall x hx
        simp [hxd]
      simp [upsertRow, upsertReturning, hany, List.map_cons, hr,
        List.filter_cons, htail, List.find?_cons_of_pos, applyUpd_id]
    · rw [upsertRow_cons_ne now d r db hr, List.filter_cons]
      have : (decide (r.id = d.id)) = false := by simp [hr]
      rw [this]
      simp only [Bool.false_eq_true, if_false]
      rw [ih hnd, upsertReturning_cons_ne now d r db hr]

/-- An upsert preserves the primary-key invariant. -/
theorem upsertRow_nodup (now : Nat) (d : UpsertData) (db : List Row)
    (h : dbKeysNodup db) : dbKeysNodup (upsertRow now db d) := by
  rw [upsertRow]
  by_cases hdb : db.any (fun x => x.id = d.id) = true
  · rw [if_pos hdb]
    have hkeys : (db.map
        (fun x => if x.id = d.id then applyUpd now d x else x)).map (·.id)
          = db.map (·.id) := by
      rw [List.map_map]
      exact List.map_congr_left (fun x _ => by
        simp only [Function.comp]
        split <;> rfl)
    rw [dbKeysNodup, hkeys]
    exact h
  · rw [if_neg hdb]
    simp only [Bool.not_eq_true, List.any_eq_false] at hdb
    rw [dbKeysNodup, List.map_append]
    rw [List.nodup_append]
    refine ⟨h, by simp, ?_⟩
    intro x hx hx'
    simp only [List.map_cons, List.map_nil, List.mem_cons,
      List.not_mem_nil, or_false] at hx'
    rcases List.mem_map.1 hx with ⟨y, hy, rfl⟩
    have hne := of_decide_eq_false (hdb y hy)
    rw [show (newRow now d).id = d.id from rfl] at hx'
    exact hne hx'

/-- The row returned by the upsert carries the submitted mutable fields
and the fresh audit timestamp. -/
theorem upsertReturning_fields (now : Nat) (d : UpsertData) (db : List Row) :
    (upsertReturning now db d).note = d.note ∧
    (upsertReturning now db d).updated_at = now ∧
    (upsertReturning now db d).id = d.id := by
  rw [upsertReturning]
  cases hf : db.find? (fun r => r.id = d.id) with
  | none => exact ⟨rfl, rfl, rfl⟩
  | some r =>
    refine ⟨rfl, rfl, ?_⟩
    have := List.find?_some hf
    simpa using this

/-- A body that passes the handler's three validation checks reaches the
upsert and the 201 response. -/
theorem postLocation_valid_eq (now : Nat) (db : List Row) (b : PostBody)
    (idq la ln : ℚ) (ty : String) (nv tv : BVal)
    (hid : b.id = some (.num idq)) (hid0 : idq ≠ 0)
    (hty : b.type = some (.str ty)) (htyv : ty = "plant" ∨ ty = "litter")
    (hnote : b.note = some nv) (hnv : nv.truthy = true)
    (hla : b.latitude = some (.num la)) (hla0 : la ≠ 0)
    (hln : b.longitude = some (.num ln)) (hln0 : ln ≠ 0)
    (hts : b.timestamp = some tv) (htv : tv.truthy = true) :
    postLocation now db b =
      (upsertRow now db (postData b idq ty la ln nv tv),
       .created (upsertReturning now db (postData b idq ty la ln nv tv))) := by
  simp [BVal.truthy] at hnv htv
  rcases htyv with rfl | rfl <;>
    simp [postLocation, postData, hid, hty, hnote, hla, hln, hts,
      truthyOpt, BVal.truthy, isNumOpt, hid0, hla0, hln0, hnv, htv]

/-- C7: the remote upsert is idempotent keyed by id — starting from any
duplicate-free table, two valid upserts with the same id leave exactly one
row with that id, holding the latest note and the second call's audit
timestamp, and the key invariant is preserved (no duplicate row is ever
created). -/
theorem post_upsert_idempotent
    (now1 now2 : Nat) (db : List Row) (b1 b2 : PostBody)
    (hnodup : dbKeysNodup db)
    (idq la1 ln1 la2 ln2 : ℚ) (ty1 ty2 : String) (nv1 nv2 tv1 tv2 : BVal)
    (hid1 : b1.id = some (.num idq)) (hid0 : idq ≠ 0)
    (hty1 : b1.type = some (.str ty1)) (htyv1 : ty1 = "plant" ∨ ty1 = "litter")
    (hnote1 : b1.note = some nv1) (hnv1 : nv1.truthy = true)
    (hla1 : b1.latitude = some (.num la1)) (hla01 : la1 ≠ 0)
    (hln1 : b1.longitude = some (.num ln1)) (hln01 : ln1 ≠ 0)
    (hts1 : b1.timestamp = some tv1) (htv1 : tv1.truthy = true)
    (hid2 : b2.id = some (.num idq))
    (hty2 : b2.type = some (.str ty2)) (htyv2 : ty2 = "plant" ∨ ty2 = "litter")
    (hnote2 : b2.note = some nv2) (hnv2 : nv2.truthy = true)
    (hla2 : b2.latitude = some (.num la2)) (hla02 : la2 ≠ 0)
    (hln2 : b2.longitude = some (.num ln2)) (hln02 : ln2 ≠ 0)
    (hts2 : b2.timestamp = some tv2) (htv2 : tv2.truthy = true) :
    ∃ dbOne rOne dbTwo rTwo,
      postLocation now1 db b1 = (dbOne, .created rOne) ∧
      postLocation now2 dbOne b2 = (dbTwo, .created rTwo) ∧
      dbTwo.filter (fun r => r.id = idq) = [rTwo] ∧
      (dbTwo.filter (fun r => r.id = idq)).length = 1 ∧
      rTwo.note = nv2 ∧ rTwo.updated_at = now2 ∧
      dbKeysNodup dbTwo := by
  have e1 := postLocation_valid_eq now1 db b1 idq la1 ln1 ty1 nv1 tv1
    hid1 hid0 hty1 htyv1 hnote1 hnv1 hla1 hla01 hln1 hln01 hts1 htv1
  have e2 := postLocation_valid_eq now2
    (upsertRow now1 db (postData b1 idq ty1 la1 ln1 nv1 tv1)) b2
    idq la2 ln2 ty2 nv2 tv2
    hid2 hid0 hty2 htyv2 hnote2 hnv2 hla2 hla02 hln2 hln02 hts2 htv2
  have hnodup1 : dbKeysNodup
      (upsertRow now1 db (postData b1 idq ty1 la1 ln1 nv1 tv1)) :=
    upsertRow_nodup now1 _ db hnodup
  have hfil : (upsertRow now2
        (upsertRow now1 db (postData b1 idq ty1 la1 ln1 nv1 tv1))
        (postData b2 idq ty2 la2 ln2 nv2 tv2)).filter
          (fun r => r.id = idq)
      = [upsertReturning now2
          (upsertRow now1 db (postData b1 idq ty1 la1 ln1 nv1 tv1))
          (postData b2 idq ty2 la2 ln2 nv2 tv2)] :=
    upsertRow_filter_key now2 (postData b2 idq ty2 la2 ln2 nv2 tv2) _ hnodup1
  have hfields := upsertReturning_fields now2
    (postData b2 idq ty2 la2 ln2 nv2 tv2)
    (upsertRow now1 db (postData b1 idq ty1 la1 ln1 nv1 tv1))
  refine ⟨_, _, _, _, e1, e2, hfil, ?_, hfields.1, hfields.2.1, ?_⟩
  · rw [hfil]; rfl
  · exact upsertRow_nodup now2 _ _ hnodup1

/-- C7 witness: two concrete upserts with id 5 — notes "first" then
"second" — on the empty table leave exactly one row with id 5 holding the
latest note. -/
theorem post_upsert_idempotent_witness :
    ∃ dbOne rOne dbTwo rTwo,
      postLocation 1 [] bodyFirst = (dbOne, .created rOne) ∧
      postLocation 2 dbOne bodySecond = (dbTwo, .created rTwo) ∧
      dbTwo.filter (fun r => r.id = (5 : ℚ)) = [rTwo] ∧
      (dbTwo.filter (fun r => r.id = (5 : ℚ))).length = 1 ∧
      rTwo.note = .str "second" ∧ rTwo.updated_at = 2 ∧
      dbKeysNodup dbTwo :=
  post_upsert_idempotent 1 2 [] bodyFirst bodySecond
    (by simp [dbKeysNodup]) 5 38 (-77) 38 (-77) "plant" "plant"
    (.str "first") (.str "second") (.str "t1") (.str "t2")
    rfl (by decide) rfl (Or.inl rfl) rfl (by decide)
    rfl (by decide) rfl (by decide) rfl (by decide)
    rfl rfl (Or.inl rfl) rfl (by decide)
    rfl (by decide) rfl (by decide) rfl (by decide)

/-- The import loop over rows that are valid but all conflicting counts
every row as imported and never touches the table. -/
theorem importLocations_fold (db : List Row) (locs : List ImportLoc)
    (f : Nat) :
    ∀ n, (∀ l ∈ locs, rowInsertable l = true ∧
            db.any (fun r => r.id = importId l) = true) →
      locs.foldl importOne (db, n, f) = (db, n + locs.length, f) := by
  induction locs with
  | nil => intro n _; simp
  | cons l ls ih =>
    intro n h
    have hl := h l (List.mem_cons_self l ls)
    have hstep : importOne (db, n, f) l = (db, n + 1, f) := by
      simp [importOne, hl.1, hl.2]
    rw [List.foldl_cons, hstep,
      ih (n + 1) (fun x hx => h x (List.mem_cons_of_mem l hx))]
    simp [Prod.ext_iff]
    omega

/-- C10: when every element of an import batch is a well-formed row whose
id already exists in the table, every `ON CONFLICT (id) DO NOTHING`
statement executes without error and inserts nothing, yet each one
increments the imported counter — the response reports
`imported = total` and `failed = 0` while the table is left exactly as it
was. -/
theorem import_conflict_counts_imported (db : List Row)
    (locs : List ImportLoc)
    (h : ∀ l ∈ locs, rowInsertable l = true ∧
         db.any (fun r => r.id = importId l) = true) :
    importLocations db locs = (db, locs.length, 0) := by
  have := importLocations_fold db locs 0 0 h
  simpa [importLocations] using this

/-- C10 witness: importing one valid row whose id 5 is already present
reports imported = 1, failed = 0 and leaves the table unchanged. -/
theorem import_conflict_counts_imported_witness :
    importLocations dbWithFive [importLocFive] = (dbWithFive, 1, 0) := by
  have h : ∀ l ∈ [importLocFive], rowInsertable l = true ∧
      dbWithFive.any (fun r => r.id = importId l) = true := by decide
  exact import_conflict_counts_imported dbWithFive [importLocFive] h

/-- C2 witness: on the busy fixture a second `syncNow` is rejected
unchanged, and on the idle fixture the run releases the flag. -/
theorem syncNow_single_flight_witness :
    syncNow (fun _ => true) 0 stBusy
      = { state := stBusy, submitted := [], report := .alreadySyncing } ∧
    (syncNow (fun _ => true) 0 stIdle).state.isSyncing = false :=
  ⟨(syncNow_single_flight (fun _ => true) 0 stBusy).1 rfl,
   (syncNow_single_flight (fun _ => true) 0 stIdle).2 rfl⟩

end LocTracker
